import Mathlib

/-!
Verification of the 7rays visualization repository.

This file gives a shallow embedding of the repository's deterministic logic:

* `relationship_analyzer.py` — the dynamic relationship scorer
  (base affinity tables, context/cycle modifiers, fourth-emphasis bonus,
  clamping, interaction bands, color blending, frequency harmony);
* `extract_meanings.py` — the static taxonomy tables that
  `export_to_json` dumps to `7rays_data.json`;
* `create_triples.py` — the graph builder expanding the taxonomy into
  entities and triples;
* `app.py` — embedding fusion, the fused-table update on visualization
  calls, and the vector-arithmetic entity resolution.

Python floats are modelled by exact rationals (the scorer) or reals (the
embedding fusion, which divides by an L2 norm, i.e. a square root).
Python `int()` truncation and `'%02x'` formatting are modelled explicitly.
-/

/-! ## Taxonomy data (extract_meanings.py, exported to 7rays_data.json) -/

/-- One entry of `SEVEN_RAYS` in `extract_meanings.py`. -/
structure RayData where
  name : String
  quality : String
  color : String
  planetary_ruler : String
  note : String
  element : String
  purpose : String
  virtue : String
  vice : String
  keywords : List String

/-- One entry of `SEVEN_PLANES` in `extract_meanings.py`.
`frequency_str` records the string `str(frequency)` produces after the JSON
round trip (e.g. `3.30` is dumped and re-printed as `"3.3"`). -/
structure PlaneData where
  name : String
  alternate_names : List String
  consciousness_state : String
  element : String
  color : String
  frequency : ℚ
  frequency_str : String
  geometric_form : String
  description : String
  sub_planes : ℕ
  keywords : List String

def ray1 : RayData :=
  { name := "Will or Power"
    quality := "Will to manifest, Divine Purpose, Leadership"
    color := "#FF0000"
    planetary_ruler := "Vulcan (hidden)"
    note := "DO"
    element := "Fire"
    purpose := "To initiate and destroy"
    virtue := "Strength, courage, steadfastness, truthfulness"
    vice := "Pride, ambition, wilfulness, hardness, arrogance"
    keywords := ["Power", "Will", "Purpose", "Leadership", "Initiative"] }

def ray2 : RayData :=
  { name := "Love-Wisdom"
    quality := "Inclusive love, Wisdom through experience"
    color := "#0066FF"
    planetary_ruler := "Jupiter"
    note := "RE"
    element := "Water"
    purpose := "To teach and heal"
    virtue := "Calm, strength, patience, endurance, love of truth, faithfulness, intuition, clear intelligence, serene temper"
    vice := "Over-absorption in study, coldness, indifference, contempt of mental limitations in others"
    keywords := ["Love", "Wisdom", "Teaching", "Healing", "Intuition"] }

def ray3 : RayData :=
  { name := "Active Intelligence"
    quality := "Creative intelligence, Adaptability"
    color := "#FFFF00"
    planetary_ruler := "Saturn"
    note := "MI"
    element := "Air"
    purpose := "To manipulate matter and energy"
    virtue := "Wide views on all abstract questions, sincerity of purpose, clear intellect, capacity for concentration, patience, caution, absence of the tendency to worry over trifles"
    vice := "Intellectual pride, coldness, isolation, inaccuracy in details, absent-mindedness, obstinacy, selfishness, overmuch criticism of others"
    keywords := ["Intelligence", "Creativity", "Manipulation", "Mental", "Adaptability"] }

def ray4 : RayData :=
  { name := "Harmony through Conflict"
    quality := "Beauty, Art, Bridge-building, Mediation"
    color := "#00FF00"
    planetary_ruler := "Mercury"
    note := "FA"
    element := "Earth-Water"
    purpose := "To harmonize and beautify"
    virtue := "Strong affections, sympathy, physical courage, generosity, devotion, intellect, perception"
    vice := "Self-centeredness, worrying, inaccuracy, lack of confidence, lack of moral courage"
    keywords := ["Harmony", "Beauty", "Conflict", "Art", "Mediation", "Bridge"] }

def ray5 : RayData :=
  { name := "Concrete Knowledge"
    quality := "Science, Research, Precision"
    color := "#FF8000"
    planetary_ruler := "Venus"
    note := "SOL"
    element := "Fire-Air"
    purpose := "To know and understand"
    virtue := "Strictly accurate statements, justice, perseverance, common sense, uprightness, independence, keen intellect"
    vice := "Harsh criticism, narrowness, arrogance, unforgiving temper, lack of sympathy and reverence, prejudice"
    keywords := ["Science", "Research", "Knowledge", "Precision", "Analysis"] }

def ray6 : RayData :=
  { name := "Devotion and Idealism"
    quality := "Devotion, Idealism, Religious fervor"
    color := "#FF00FF"
    planetary_ruler := "Mars/Neptune"
    note := "LA"
    element := "Water-Fire"
    purpose := "To idealize and devote"
    virtue := "Devotion, single-mindedness, love, tenderness, intuition, loyalty, reverence"
    vice := "Selfish and jealous love, over-leaning on others, partiality, self-deception, sectarianism, superstition, prejudice, over-rapid conclusions, fiery anger"
    keywords := ["Devotion", "Idealism", "Religion", "Faith", "Emotion"] }

def ray7 : RayData :=
  { name := "Ceremonial Order"
    quality := "Organization, Ritual, Magic, Transformation"
    color := "#8000FF"
    planetary_ruler := "Uranus"
    note := "SI"
    element := "Earth-Air"
    purpose := "To organize and ritualize"
    virtue := "Strength, perseverance, courage, courtesy, extreme care in details, self-reliance"
    vice := "Formalism, bigotry, pride, narrowness, superficial judgments, self-opinion overmuch"
    keywords := ["Order", "Ceremony", "Magic", "Ritual", "Organization", "Transformation"] }

def plane1 : PlaneData :=
  { name := "Logoic Plane"
    alternate_names := ["Adi", "Divine"]
    consciousness_state := "Logoic consciousness, Divine Will"
    element := "Pure Spirit"
    color := "#FFFFFF"
    frequency := 7.23
    frequency_str := "7.23"
    geometric_form := "Point"
    description := "Plane of divine purpose and will, source of all manifestation"
    sub_planes := 7
    keywords := ["Divine", "Will", "Source", "Unity"] }

def plane2 : PlaneData :=
  { name := "Monadic Plane"
    alternate_names := ["Anupadaka", "Primordial"]
    consciousness_state := "Monadic consciousness, Divine Love-Wisdom"
    element := "Spirit-Matter"
    color := "#E6E6FA"
    frequency := 6.19
    frequency_str := "6.19"
    geometric_form := "Line"
    description := "Plane of the Monad, divine spark, love-wisdom aspect"
    sub_planes := 7
    keywords := ["Monad", "Love-Wisdom", "Divine Spark", "Duality"] }

def plane3 : PlaneData :=
  { name := "Atmic Plane"
    alternate_names := ["Spiritual", "Nirvanic"]
    consciousness_state := "Spiritual will, Atmic consciousness"
    element := "Spiritual Fire"
    color := "#FFD700"
    frequency := 5.29
    frequency_str := "5.29"
    geometric_form := "Triangle"
    description := "Plane of spiritual will, home of the spiritual triad"
    sub_planes := 7
    keywords := ["Spiritual", "Will", "Triad", "Trinity"] }

def plane4 : PlaneData :=
  { name := "Buddhic Plane"
    alternate_names := ["Intuitional", "Christ Consciousness"]
    consciousness_state := "Intuitional consciousness, Unity perception"
    element := "Pure reason, Intuition"
    color := "#00BFFF"
    frequency := 4.52
    frequency_str := "4.52"
    geometric_form := "Square"
    description := "Plane of pure reason and intuition, Christ consciousness, unity awareness"
    sub_planes := 7
    keywords := ["Intuition", "Christ", "Unity", "Reason", "Bridge"] }

def plane5 : PlaneData :=
  { name := "Mental Plane"
    alternate_names := ["Manasic", "Mind"]
    consciousness_state := "Abstract and concrete thought"
    element := "Mental matter"
    color := "#FFFF00"
    frequency := 3.86
    frequency_str := "3.86"
    geometric_form := "Pentagon"
    description := "Plane of mind, abstract and concrete thought, ideas and concepts"
    sub_planes := 7
    keywords := ["Mind", "Thought", "Ideas", "Concepts", "Mental"] }

def plane6 : PlaneData :=
  { name := "Astral Plane"
    alternate_names := ["Emotional", "Desire", "Kamic"]
    consciousness_state := "Emotional consciousness, Desire"
    element := "Emotional/astral matter"
    color := "#FF69B4"
    frequency := 3.30
    frequency_str := "3.3"
    geometric_form := "Hexagon"
    description := "Plane of emotions, desires, feelings, astral experiences"
    sub_planes := 7
    keywords := ["Emotion", "Desire", "Feeling", "Astral", "Passion"] }

def plane7 : PlaneData :=
  { name := "Physical Plane"
    alternate_names := ["Dense", "Etheric-Physical"]
    consciousness_state := "Physical consciousness, Material awareness"
    element := "Dense and etheric matter"
    color := "#8B4513"
    frequency := 2.82
    frequency_str := "2.82"
    geometric_form := "Heptagon"
    description := "Plane of dense matter and etheric energies, physical manifestation"
    sub_planes := 7
    keywords := ["Physical", "Matter", "Dense", "Etheric", "Material"] }

/-- Lookup `data['rays'][str(ray_num)]`.  The Python dict has keys
`"1"`..`"7"`; out-of-range keys raise `KeyError`, which the claims never
exercise, so a dummy record stands in for that error path. -/
def raysData (ray_num : ℕ) : RayData :=
  match ray_num with
  | 1 => ray1
  | 2 => ray2
  | 3 => ray3
  | 4 => ray4
  | 5 => ray5
  | 6 => ray6
  | 7 => ray7
  | _ => { name := "", quality := "", color := "", planetary_ruler := "",
           note := "", element := "", purpose := "", virtue := "", vice := "",
           keywords := [] }

/-- Lookup `data['planes'][str(plane_num)]`; same convention as `raysData`. -/
def planesData (plane_num : ℕ) : PlaneData :=
  match plane_num with
  | 1 => plane1
  | 2 => plane2
  | 3 => plane3
  | 4 => plane4
  | 5 => plane5
  | 6 => plane6
  | 7 => plane7
  | _ => { name := "", alternate_names := [], consciousness_state := "",
           element := "", color := "", frequency := 0, frequency_str := "",
           geometric_form := "", description := "", sub_planes := 0,
           keywords := [] }

/-! ## Relationship scorer (relationship_analyzer.py) -/

/-- Keys of `self.contexts` set up in `DynamicRelationshipAnalyzer.__init__`
(the stored `consciousness_level` / `ray_emphasis` values are never read by
the scorer, only key membership is tested). -/
def contextKeys : List String := ["mineral", "plant", "animal", "human", "spiritual"]

/-- The `primary_pairs` dict of `_get_base_affinity`. -/
def primary_pairs : List ((ℕ × ℕ) × ℚ) :=
  [((1, 1), 0.9), ((1, 7), 0.8),
   ((2, 2), 0.9), ((2, 6), 0.7),
   ((3, 3), 0.9), ((3, 5), 0.8),
   ((4, 4), 1.0),
   ((5, 5), 0.9),
   ((6, 6), 0.9),
   ((7, 7), 0.9)]

/-- The `secondary_pairs` dict of `_get_base_affinity`. -/
def secondary_pairs : List ((ℕ × ℕ) × ℚ) :=
  [((1, 3), 0.6), ((1, 5), 0.5),
   ((2, 4), 0.8), ((2, 5), 0.6),
   ((3, 1), 0.5), ((3, 7), 0.7),
   ((4, 2), 0.7), ((4, 6), 0.6),
   ((5, 3), 0.8), ((5, 7), 0.6),
   ((6, 2), 0.6), ((6, 4), 0.5),
   ((7, 1), 0.8), ((7, 3), 0.6)]

/-- `_get_base_affinity`: primary pairs, then secondary pairs, then the
numerical-proximity fallback. -/
def get_base_affinity (ray_num plane_num : ℕ) : ℚ :=
  match primary_pairs.lookup (ray_num, plane_num) with
  | some v => v
  | none =>
    match secondary_pairs.lookup (ray_num, plane_num) with
    | some v => v
    | none =>
      let diff := ((ray_num : ℤ) - (plane_num : ℤ)).natAbs
      if diff = 0 then 0.9 else if diff ≤ 2 then 0.4 else 0.2

/-- `_get_context_modifier`. -/
def get_context_modifier (ray_num plane_num : ℕ) (context : String) : ℚ :=
  if ¬ contextKeys.contains context then 1.0
  else if context = "human" then
    if ray_num = 4 ∨ plane_num = 4 then 1.3
    else if ray_num = 2 ∨ ray_num = 5 ∨ plane_num = 5 ∨ plane_num = 6 then 1.1
    else 1.0
  else if context = "spiritual" then
    if ray_num = 1 ∨ ray_num = 2 ∨ plane_num = 1 ∨ plane_num = 2 ∨ plane_num = 3 then 1.2
    else if ray_num = 6 ∨ ray_num = 7 ∨ plane_num = 6 ∨ plane_num = 7 then 0.8
    else 1.0
  else if context = "animal" then
    if ray_num = 3 ∨ ray_num = 6 ∨ plane_num = 6 ∨ plane_num = 7 then 1.2
    else if ray_num = 1 ∨ ray_num = 5 ∨ plane_num = 1 ∨ plane_num = 2 then 0.7
    else 1.0
  else 1.0

/-- `_get_cycle_modifier` (the `plane_num` argument is accepted but unused,
as in the source). -/
def get_cycle_modifier (ray_num plane_num : ℕ) (cycle_phase : String) : ℚ :=
  if cycle_phase = "outgoing" then
    if ray_num % 2 = 1 then 1.2 else 0.9
  else if cycle_phase = "incoming" then
    if ray_num % 2 = 0 then 1.2 else 0.9
  else 1.0

/-- `_get_fourth_emphasis_bonus`. -/
def get_fourth_emphasis_bonus (ray_num plane_num : ℕ) : ℚ :=
  if ray_num = 4 ∧ plane_num = 4 then 0.2
  else if ray_num = 4 ∨ plane_num = 4 then 0.1
  else 0.0

/-- `_determine_interaction_type` (the `ray_num`, `plane_num` arguments are
accepted but unused, as in the source). -/
def determine_interaction_type (ray_num plane_num : ℕ) (strength : ℚ) : String :=
  if strength > 0.8 then "primary_channel"
  else if strength > 0.6 then "strong_influence"
  else if strength > 0.4 then "moderate_interaction"
  else if strength > 0.2 then "subtle_resonance"
  else "minimal_connection"

/-- Python `int()` on a rational: truncation toward zero. -/
def pyInt (q : ℚ) : ℤ := if 0 ≤ q then ⌊q⌋ else ⌈q⌉

/-- Value of a hexadecimal digit character, as `int(c, 16)` computes it
(`0`..`9`, `a`..`f`, `A`..`F`); other characters never occur on the
claims' inputs and map to the junk value 0. -/
def hexDigitVal (c : Char) : ℕ :=
  if 48 ≤ c.toNat ∧ c.toNat ≤ 57 then c.toNat - 48
  else if 97 ≤ c.toNat ∧ c.toNat ≤ 102 then c.toNat - 87
  else if 65 ≤ c.toNat ∧ c.toNat ≤ 70 then c.toNat - 55
  else 0

/-- Is `c` a hexadecimal digit character (`0`..`9`, `a`..`f`, `A`..`F`)? -/
def isHexDigitChar (c : Char) : Bool :=
  (48 ≤ c.toNat && c.toNat ≤ 57) || (97 ≤ c.toNat && c.toNat ≤ 102) ||
    (65 ≤ c.toNat && c.toNat ≤ 70)

/-- The inner `hex_to_rgb` helper of `_calculate_color_blend`:
`lstrip('#')`, then parse the three 2-digit channel values. -/
def hex_to_rgb (hex_color : String) : ℕ × ℕ × ℕ :=
  let cs := hex_color.data.dropWhile (· = '#')
  (16 * hexDigitVal (cs.getD 0 '0') + hexDigitVal (cs.getD 1 '0'),
   16 * hexDigitVal (cs.getD 2 '0') + hexDigitVal (cs.getD 3 '0'),
   16 * hexDigitVal (cs.getD 4 '0') + hexDigitVal (cs.getD 5 '0'))

/-- Lowercase hexadecimal digits of `n`, most significant first, as Python
`'%x'` prints a nonnegative integer (`Nat.toDigits 16` is exactly that). -/
def natHexDigits (n : ℕ) : List Char := Nat.toDigits 16 n

/-- Python `'%02x' % i`: hexadecimal digits (a sign counts toward the
width), left-padded with `'0'` to a minimum width of 2. -/
def pyHex02 (i : ℤ) : String :=
  let body := if i < 0 then '-' :: natHexDigits i.natAbs else natHexDigits i.toNat
  String.mk (List.replicate (2 - body.length) '0' ++ body)

/-- The inner `rgb_to_hex` helper: `'#%02x%02x%02x' % rgb`. -/
def rgb_to_hex (rgb : ℤ × ℤ × ℤ) : String :=
  "#" ++ pyHex02 rgb.1 ++ pyHex02 rgb.2.1 ++ pyHex02 rgb.2.2

/-- One blended channel: `int(ray_rgb[i] * strength + plane_rgb[i] * (1 - strength))`. -/
def blendChannel (a b : ℕ) (strength : ℚ) : ℤ :=
  pyInt ((a : ℚ) * strength + (b : ℚ) * (1 - strength))

/-- Return record of `_calculate_color_blend`. -/
structure ColorBlend where
  ray_color : String
  plane_color : String
  blended_color : String
  blend_strength : ℚ

/-- Body of `_calculate_color_blend` after the two color strings have been
looked up (factored out so the claims can quantify over arbitrary colors). -/
def color_blend_core (ray_color plane_color : String) (strength : ℚ) : ColorBlend :=
  let ray_rgb := hex_to_rgb ray_color
  let plane_rgb := hex_to_rgb plane_color
  let blended_rgb := (blendChannel ray_rgb.1 plane_rgb.1 strength,
                      blendChannel ray_rgb.2.1 plane_rgb.2.1 strength,
                      blendChannel ray_rgb.2.2 plane_rgb.2.2 strength)
  { ray_color := ray_color
    plane_color := plane_color
    blended_color := rgb_to_hex blended_rgb
    blend_strength := strength }

/-- `_calculate_color_blend`. -/
def calculate_color_blend (ray_num plane_num : ℕ) (strength : ℚ) : ColorBlend :=
  color_blend_core (raysData ray_num).color (planesData plane_num).color strength

/-- Return record of `_calculate_frequency_harmony`. -/
structure FrequencyHarmony where
  ray_frequency : ℚ
  plane_frequency : ℚ
  harmonic_ratio : ℚ
  consonance : ℚ

/-- Python `min()` over a nonempty list (junk value 0 for the empty list,
which never occurs). -/
def listMin : List ℚ → ℚ
  | [] => 0
  | x :: xs => xs.foldl min x

/-- `_calculate_consonance`. -/
def calculate_consonance (ratio : ℚ) : ℚ :=
  let simple_ratios : List ℚ := [1/1, 2/1, 3/2, 4/3, 5/4, 6/5, 8/7]
  let min_distance := listMin (simple_ratios.map (fun r => |ratio - r|))
  1 / (1 + min_distance * 5)

/-- `_calculate_frequency_harmony`. -/
def calculate_frequency_harmony (ray_num plane_num : ℕ) : FrequencyHarmony :=
  let intervals : List ℚ := [1.0, 9/8, 5/4, 4/3, 3/2, 5/3, 15/8]
  let base_freq : ℚ := 432
  let ray_freq := base_freq * intervals.getD (ray_num - 1) 0
  let plane_freq := (planesData plane_num).frequency * 100
  let ratio := if plane_freq ≠ 0 then ray_freq / plane_freq else 1
  { ray_frequency := ray_freq
    plane_frequency := plane_freq
    harmonic_ratio := ratio
    consonance := calculate_consonance ratio }

/-- `_get_evolutionary_function`. -/
def get_evolutionary_function (ray_num plane_num : ℕ) (context : String) : String :=
  let ray_name := (raysData ray_num).name
  let plane_name := (planesData plane_num).name
  if context = "human" ∧ ray_num = 4 ∧ plane_num = 4 then
    "Bridge consciousness between spiritual and personality realms"
  else if context = "human" ∧ ray_num = 2 ∧ plane_num = 4 then
    "Intuitive wisdom expressing through " ++ plane_name
  else if context = "human" ∧ ray_num = 5 ∧ plane_num = 5 then
    "Scientific understanding through concrete mind"
  else if context = "human" ∧ ray_num = 6 ∧ plane_num = 6 then
    "Devotional aspiration in emotional nature"
  else if context = "spiritual" ∧ ray_num = 1 ∧ plane_num = 1 then
    "Divine will expressing through " ++ plane_name
  else if context = "spiritual" ∧ ray_num = 2 ∧ plane_num = 2 then
    "Love-wisdom radiating from " ++ plane_name
  else if context = "spiritual" ∧ ray_num = 3 ∧ plane_num = 3 then
    "Active intelligence organizing " ++ plane_name
  else
    ray_name ++ " influencing " ++ plane_name ++ " in " ++ context ++ " context"

/-- Return record of `calculate_dynamic_relationship`. -/
structure Relationship where
  ray : ℕ
  plane : ℕ
  strength : ℚ
  context : String
  cycle_phase : String
  interaction_type : String
  color_blend : ColorBlend
  frequency_harmony : FrequencyHarmony
  evolutionary_function : String

/-- `calculate_dynamic_relationship`. -/
def calculate_dynamic_relationship (ray_num plane_num : ℕ)
    (context cycle_phase : String) : Relationship :=
  let base_relationship := get_base_affinity ray_num plane_num
  let context_modifier := get_context_modifier ray_num plane_num context
  let cycle_modifier := get_cycle_modifier ray_num plane_num cycle_phase
  let fourth_emphasis := get_fourth_emphasis_bonus ray_num plane_num
  let strength := min (max (base_relationship * context_modifier * cycle_modifier + fourth_emphasis) 0) 1
  { ray := ray_num
    plane := plane_num
    strength := strength
    context := context
    cycle_phase := cycle_phase
    interaction_type := determine_interaction_type ray_num plane_num strength
    color_blend := calculate_color_blend ray_num plane_num strength
    frequency_harmony := calculate_frequency_harmony ray_num plane_num
    evolutionary_function := get_evolutionary_function ray_num plane_num context }

/-- `generate_full_relationship_matrix`: both loops are `range(1, 8)` and
`calculate_dynamic_relationship` is called with its default
`cycle_phase='balanced'`. -/
def generate_full_relationship_matrix (context : String) : List Relationship :=
  (List.range' 1 7).flatMap fun ray_num =>
    (List.range' 1 7).map fun plane_num =>
      calculate_dynamic_relationship ray_num plane_num context "balanced"

/-! ## Theorems: claims C1 and C2 -/

/-- C1: for every ray in 1..7, every plane in 1..7, every context string and
every cycle-phase string, the `strength` field of the record returned by
`calculate_dynamic_relationship` satisfies `0 ≤ strength ≤ 1`, because the
raw product-plus-bonus value is clamped into `[0, 1]`. -/
theorem strength_bounded (ray_num plane_num : ℕ) (context cycle_phase : String)
    (hr : 1 ≤ ray_num ∧ ray_num ≤ 7) (hp : 1 ≤ plane_num ∧ plane_num ≤ 7) :
    0 ≤ (calculate_dynamic_relationship ray_num plane_num context cycle_phase).strength ∧
      (calculate_dynamic_relationship ray_num plane_num context cycle_phase).strength ≤ 1 := by
  refine ⟨le_min (le_max_right _ _) zero_le_one, min_le_right _ _⟩

/-- Witness for C1 at ray 3, plane 6, context "animal", cycle "outgoing". -/
theorem strength_bounded_witness :
    (1 ≤ 3 ∧ 3 ≤ 7) ∧ (1 ≤ 6 ∧ 6 ≤ 7) ∧
      (0 ≤ (calculate_dynamic_relationship 3 6 "animal" "outgoing").strength ∧
        (calculate_dynamic_relationship 3 6 "animal" "outgoing").strength ≤ 1) :=
  ⟨by omega, by omega,
    strength_bounded 3 6 "animal" "outgoing" (by omega) (by omega)⟩

/-- C2: `calculate_dynamic_relationship(4, 4, 'human', 'balanced')` has
strength exactly 1: base affinity 1.0, human-context modifier 1.3 (ray or
plane equals 4), balanced cycle modifier 1.0, fourth-emphasis bonus 0.2, and
`1.0 * 1.3 * 1.0 + 0.2 = 1.5` clamps to 1. -/
theorem strength_four_four_human :
    get_base_affinity 4 4 = 1.0 ∧
      get_context_modifier 4 4 "human" = 1.3 ∧
      get_cycle_modifier 4 4 "balanced" = 1.0 ∧
      get_fourth_emphasis_bonus 4 4 = 0.2 ∧
      (calculate_dynamic_relationship 4 4 "human" "balanced").strength = 1.0 := by
  have hb : get_base_affinity 4 4 = 1.0 := by
    norm_num [get_base_affinity, primary_pairs, List.lookup, beq_eq_decide]
  have hc : get_context_modifier 4 4 "human" = 1.3 := by
    simp [get_context_modifier, contextKeys]
  have hy : get_cycle_modifier 4 4 "balanced" = 1.0 := rfl
  have hf : get_fourth_emphasis_bonus 4 4 = 0.2 := by
    norm_num [get_fourth_emphasis_bonus]
  refine ⟨hb, hc, hy, hf, ?_⟩
  simp only [calculate_dynamic_relationship]
  rw [hb, hc, hy, hf]
  norm_num [min_def, max_def]

/-! ## Theorems: claim C4 (full relationship matrix) -/

/-- All (ray, plane) pairs in ray-major, plane-minor order. -/
def all_ray_plane_pairs : List (ℕ × ℕ) :=
  (List.range' 1 7).flatMap fun ray_num =>
    (List.range' 1 7).map fun plane_num => (ray_num, plane_num)

/-- Junk record used as the `getD` default when indexing the matrix. -/
def dummy_relationship : Relationship :=
  calculate_dynamic_relationship 0 0 "" ""

/-- C4: for every context, `generate_full_relationship_matrix` returns
exactly 49 records, whose (ray, plane) pairs are exactly the Cartesian
product 1..7 x 1..7 with no duplicate, in ray-major then plane-minor order:
the record at position `7*(ray-1)+(plane-1)` carries that ray and plane. -/
theorem matrix_complete (context : String) :
    (generate_full_relationship_matrix context).length = 49 ∧
      ((generate_full_relationship_matrix context).map fun rel => (rel.ray, rel.plane)) =
        all_ray_plane_pairs ∧
      (((generate_full_relationship_matrix context).map fun rel => (rel.ray, rel.plane)).Nodup) ∧
      ∀ ray_num plane_num : ℕ, 1 ≤ ray_num → ray_num ≤ 7 → 1 ≤ plane_num → plane_num ≤ 7 →
        ((generate_full_relationship_matrix context).getD
            (7 * (ray_num - 1) + (plane_num - 1)) dummy_relationship).ray = ray_num ∧
          ((generate_full_relationship_matrix context).getD
              (7 * (ray_num - 1) + (plane_num - 1)) dummy_relationship).plane = plane_num := by
  have hmap : ((generate_full_relationship_matrix context).map fun rel => (rel.ray, rel.plane)) =
      all_ray_plane_pairs := rfl
  refine ⟨?_, hmap, ?_, ?_⟩
  · have hlen := congrArg List.length hmap
    simpa using hlen
  · rw [hmap]
    decide
  · intro ray_num plane_num hr1 hr2 hp1 hp2
    interval_cases ray_num <;> interval_cases plane_num <;> exact ⟨rfl, rfl⟩

/-- Witness for C4: the "human" matrix has 49 entries and the record at
position `7*(4-1)+(4-1) = 24` is the (4, 4) pair. -/
theorem matrix_complete_witness :
    (generate_full_relationship_matrix "human").length = 49 ∧
      ((generate_full_relationship_matrix "human").getD (7 * (4 - 1) + (4 - 1))
          dummy_relationship).ray = 4 ∧
        ((generate_full_relationship_matrix "human").getD (7 * (4 - 1) + (4 - 1))
            dummy_relationship).plane = 4 :=
  ⟨(matrix_complete "human").1,
    ((matrix_complete "human").2.2.2 4 4 (by omega) (by omega) (by omega) (by omega)).1,
    ((matrix_complete "human").2.2.2 4 4 (by omega) (by omega) (by omega) (by omega)).2⟩

/-! ## Theorems: claim C10 (color blending) -/

/-- A well-formed color string: `'#'` followed by exactly six hexadecimal
digit characters. -/
def isHexColorString (s : String) : Bool :=
  match s.data with
  | c :: rest => c == '#' && rest.length == 6 && rest.all isHexDigitChar
  | [] => false

/-- A hexadecimal digit character has value at most 15. -/
theorem hexDigitVal_le (c : Char) (h : isHexDigitChar c = true) : hexDigitVal c ≤ 15 := by
  simp only [isHexDigitChar, Bool.or_eq_true, Bool.and_eq_true, decide_eq_true_eq] at h
  unfold hexDigitVal
  split_ifs <;> omega

/-- Indexing with default `'0'` into a list of hexadecimal digit characters
always yields a character of value at most 15. -/
theorem hexDigitVal_getD_le (l : List Char) (i : ℕ)
    (h : ∀ c ∈ l, isHexDigitChar c = true) : hexDigitVal (l[i]?.getD '0') ≤ 15 := by
  by_cases hi : i < l.length
  · rw [List.getElem?_eq_getElem hi]
    exact hexDigitVal_le _ (h _ (l.getElem_mem hi))
  · rw [List.getElem?_eq_none (by omega)]
    decide

/-- Each channel parsed by `hex_to_rgb` from a well-formed color is at
most 255. -/
theorem hex_to_rgb_le (s : String) (h : isHexColorString s = true) :
    (hex_to_rgb s).1 ≤ 255 ∧ (hex_to_rgb s).2.1 ≤ 255 ∧ (hex_to_rgb s).2.2 ≤ 255 := by
  unfold isHexColorString at h
  unfold hex_to_rgb
  rcases hd : s.data with _ | ⟨c0, rest⟩ <;> rw [hd] at h
  · simp at h
  · simp only [Bool.and_eq_true, beq_iff_eq, List.all_eq_true] at h
    obtain ⟨⟨hc0, hlen⟩, hhex⟩ := h
    subst hc0
    have hne : rest.dropWhile (fun c => decide (c = '#')) = rest := by
      rcases rest with _ | ⟨r0, rest'⟩
      · rfl
      · have hhd : isHexDigitChar r0 = true := hhex r0 (by simp)
        have hr0 : ¬ (r0 = '#') := by
          intro e
          rw [e] at hhd
          simp [isHexDigitChar] at hhd
        simp [List.dropWhile, hr0]
    simp only [List.dropWhile_cons]
    norm_num [hne]
    have h0 := hexDigitVal_getD_le rest 0 hhex
    have h1 := hexDigitVal_getD_le rest 1 hhex
    have h2 := hexDigitVal_getD_le rest 2 hhex
    have h3 := hexDigitVal_getD_le rest 3 hhex
    have h4 := hexDigitVal_getD_le rest 4 hhex
    have h5 := hexDigitVal_getD_le rest 5 hhex
    omega

/-- A blended channel is an integer in `0..255` whenever both input
channels are at most 255 and the strength lies in `[0, 1]`. -/
theorem blendChannel_bounds (a b : ℕ) (s : ℚ) (ha : a ≤ 255) (hb : b ≤ 255)
    (h0 : 0 ≤ s) (h1 : s ≤ 1) : 0 ≤ blendChannel a b s ∧ blendChannel a b s ≤ 255 := by
  have haq : (a : ℚ) ≤ 255 := by exact_mod_cast ha
  have hbq : (b : ℚ) ≤ 255 := by exact_mod_cast hb
  have hs1 : 0 ≤ 1 - s := by linarith
  have hx0 : 0 ≤ (a : ℚ) * s + (b : ℚ) * (1 - s) := by
    have := mul_nonneg (a.cast_nonneg : (0 : ℚ) ≤ a) h0
    have := mul_nonneg (b.cast_nonneg : (0 : ℚ) ≤ b) hs1
    linarith
  have hx255 : (a : ℚ) * s + (b : ℚ) * (1 - s) ≤ 255 := by nlinarith
  unfold blendChannel pyInt
  rw [if_pos hx0]
  constructor
  · exact Int.floor_nonneg.mpr hx0
  · have := Int.floor_le_floor (α := ℚ) hx255
    simpa using this

set_option maxRecDepth 8000 in
/-- `Nat.toDigits 16` on a byte value yields one or two characters, all
hexadecimal digits. -/
theorem toDigits16_byte : ∀ n < 256,
    ((Nat.toDigits 16 n).length = 1 ∨ (Nat.toDigits 16 n).length = 2) ∧
      ∀ c ∈ Nat.toDigits 16 n, isHexDigitChar c = true := by decide

/-- `pyHex02` of an integer in `0..255` is two hexadecimal digit characters. -/
theorem pyHex02_hex (i : ℤ) (h0 : 0 ≤ i) (h255 : i ≤ 255) :
    (pyHex02 i).data.length = 2 ∧ ∀ c ∈ (pyHex02 i).data, isHexDigitChar c = true := by
  have hn : i.toNat < 256 := by omega
  obtain ⟨hlen, hhex⟩ := toDigits16_byte i.toNat hn
  simp only [pyHex02, natHexDigits]
  rw [if_neg (by omega : ¬ i < 0)]
  constructor
  · show (List.replicate (2 - (Nat.toDigits 16 i.toNat).length) '0' ++
        Nat.toDigits 16 i.toNat).length = 2
    rw [List.length_append, List.length_replicate]
    omega
  · intro c hc
    have hc2 : c ∈ List.replicate (2 - (Nat.toDigits 16 i.toNat).length) '0' ++
        Nat.toDigits 16 i.toNat := hc
    rcases List.mem_append.mp hc2 with hmem | hmem
    · have hz := List.eq_of_mem_replicate hmem
      subst hz
      decide
    · exact hhex c hmem

/-- A `'#'` followed by three 2-hex-digit groups is a well-formed color. -/
theorem isHexColorString_of_groups (s1 s2 s3 : String)
    (hl1 : s1.data.length = 2) (ha1 : ∀ c ∈ s1.data, isHexDigitChar c = true)
    (hl2 : s2.data.length = 2) (ha2 : ∀ c ∈ s2.data, isHexDigitChar c = true)
    (hl3 : s3.data.length = 2) (ha3 : ∀ c ∈ s3.data, isHexDigitChar c = true) :
    isHexColorString ("#" ++ s1 ++ s2 ++ s3) = true := by
  have hd : ("#" ++ s1 ++ s2 ++ s3).data = '#' :: (s1.data ++ s2.data ++ s3.data) := by
    simp only [String.data_append, List.append_assoc]
    rfl
  unfold isHexColorString
  rw [hd]
  simp [List.length_append, hl1, hl2, hl3]
  first
  | exact ⟨⟨ha1, ha2⟩, ha3⟩
  | exact ⟨ha1, ha2, ha3⟩

/-- C10: for every strength in `[0, 1]` and every pair of well-formed
6-hex-digit colors, each blended RGB channel computed by
`_calculate_color_blend` is an integer in `0..255`, and the `blended_color`
field is a well-formed `'#rrggbb'` string of exactly 7 characters. -/
theorem color_blend_wellformed (ray_color plane_color : String) (strength : ℚ)
    (h0 : 0 ≤ strength) (h1 : strength ≤ 1)
    (hr : isHexColorString ray_color = true) (hp : isHexColorString plane_color = true) :
    (0 ≤ blendChannel (hex_to_rgb ray_color).1 (hex_to_rgb plane_color).1 strength ∧
        blendChannel (hex_to_rgb ray_color).1 (hex_to_rgb plane_color).1 strength ≤ 255) ∧
      (0 ≤ blendChannel (hex_to_rgb ray_color).2.1 (hex_to_rgb plane_color).2.1 strength ∧
        blendChannel (hex_to_rgb ray_color).2.1 (hex_to_rgb plane_color).2.1 strength ≤ 255) ∧
      (0 ≤ blendChannel (hex_to_rgb ray_color).2.2 (hex_to_rgb plane_color).2.2 strength ∧
        blendChannel (hex_to_rgb ray_color).2.2 (hex_to_rgb plane_color).2.2 strength ≤ 255) ∧
      (color_blend_core ray_color plane_color strength).blended_color.length = 7 ∧
      isHexColorString (color_blend_core ray_color plane_color strength).blended_color = true := by
  obtain ⟨hr1, hr2, hr3⟩ := hex_to_rgb_le ray_color hr
  obtain ⟨hp1, hp2, hp3⟩ := hex_to_rgb_le plane_color hp
  have hb1 := blendChannel_bounds _ _ strength hr1 hp1 h0 h1
  have hb2 := blendChannel_bounds _ _ strength hr2 hp2 h0 h1
  have hb3 := blendChannel_bounds _ _ strength hr3 hp3 h0 h1
  have hx1 := pyHex02_hex _ hb1.1 hb1.2
  have hx2 := pyHex02_hex _ hb2.1 hb2.2
  have hx3 := pyHex02_hex _ hb3.1 hb3.2
  have hcore : (color_blend_core ray_color plane_color strength).blended_color =
      "#" ++ pyHex02 (blendChannel (hex_to_rgb ray_color).1 (hex_to_rgb plane_color).1 strength)
        ++ pyHex02 (blendChannel (hex_to_rgb ray_color).2.1 (hex_to_rgb plane_color).2.1 strength)
        ++ pyHex02 (blendChannel (hex_to_rgb ray_color).2.2 (hex_to_rgb plane_color).2.2 strength) := rfl
  refine ⟨hb1, hb2, hb3, ?_, ?_⟩
  · rw [hcore]
    have hxl1 : (pyHex02 (blendChannel (hex_to_rgb ray_color).1
        (hex_to_rgb plane_color).1 strength)).length = 2 := hx1.1
    have hxl2 : (pyHex02 (blendChannel (hex_to_rgb ray_color).2.1
        (hex_to_rgb plane_color).2.1 strength)).length = 2 := hx2.1
    have hxl3 : (pyHex02 (blendChannel (hex_to_rgb ray_color).2.2
        (hex_to_rgb plane_color).2.2 strength)).length = 2 := hx3.1
    rw [String.length_append, String.length_append, String.length_append,
      hxl1, hxl2, hxl3]
    rfl
  · rw [hcore]
    exact isHexColorString_of_groups _ _ _ hx1.1 hx1.2 hx2.1 hx2.2 hx3.1 hx3.2

/-- Witness for C10 at strength 1/2 with ray color `#FF0000` (Ray 1) and
plane color `#00BFFF` (Plane 4). -/
theorem color_blend_wellformed_witness :
    ((0 : ℚ) ≤ 1/2 ∧ (1/2 : ℚ) ≤ 1 ∧
        isHexColorString "#FF0000" = true ∧ isHexColorString "#00BFFF" = true) ∧
      (color_blend_core "#FF0000" "#00BFFF" (1/2)).blended_color.length = 7 ∧
      isHexColorString (color_blend_core "#FF0000" "#00BFFF" (1/2)).blended_color = true :=
  ⟨⟨by norm_num, by norm_num, by decide, by decide⟩,
    (color_blend_wellformed "#FF0000" "#00BFFF" (1/2) (by norm_num) (by norm_num)
        (by decide) (by decide)).2.2.2.1,
    (color_blend_wellformed "#FF0000" "#00BFFF" (1/2) (by norm_num) (by norm_num)
        (by decide) (by decide)).2.2.2.2⟩

/-! ## Graph builder (create_triples.py) -/

/-- A knowledge-graph triple `(head, relation, tail)`. -/
abbrev Triple := String × String × String

/-- One row of `data/nodes.csv` as built by `create_entities_and_triples`. -/
structure Entity where
  id : String
  label : String
  kind : String
  color : String
  description : String

/-- One relationship record read back from the optional
`ray_plane_relationships_human.json` export (only the fields the builder
consumes). -/
structure ScoredRel where
  ray : ℕ
  plane : ℕ
  strength : ℚ
  interaction_type : String

/-- The `relation_map` dict of `create_entities_and_triples` together with
its `.get(..., 'relates_to')` default. -/
def relation_map_get (interaction_type : String) : String :=
  if interaction_type = "primary_channel" then "flows_through"
  else if interaction_type = "strong_influence" then "strongly_influences"
  else if interaction_type = "moderate_interaction" then "interacts_with"
  else if interaction_type = "subtle_resonance" then "resonates_with"
  else "relates_to"

/-- The loop of `create_entities_and_triples` over the optional export
file: one triple per relationship with strength above 0.6. -/
def dynamic_relationship_triples (rels : List ScoredRel) : List Triple :=
  rels.foldl (fun ts rel =>
    if rel.strength > 0.6 then
      ts ++ [("Ray" ++ toString rel.ray, relation_map_get rel.interaction_type,
        "Plane" ++ toString rel.plane)]
    else ts) []

/-- The dynamic-relationship fold is a `filterMap`. -/
theorem dynamic_relationship_triples_eq (rels : List ScoredRel) :
    dynamic_relationship_triples rels = rels.filterMap (fun rel =>
      if rel.strength > 0.6 then
        some ("Ray" ++ toString rel.ray, relation_map_get rel.interaction_type,
          "Plane" ++ toString rel.plane)
      else none) := by
  have haux : ∀ (l : List ScoredRel) (acc : List Triple),
      (l.foldl (fun ts rel =>
        if rel.strength > 0.6 then
          ts ++ [("Ray" ++ toString rel.ray, relation_map_get rel.interaction_type,
            "Plane" ++ toString rel.plane)]
        else ts) acc) = acc ++ l.filterMap (fun rel =>
          if rel.strength > 0.6 then
            some ("Ray" ++ toString rel.ray, relation_map_get rel.interaction_type,
              "Plane" ++ toString rel.plane)
          else none) := by
    intro l
    induction l with
    | nil => intro acc; simp
    | cons hd tl ih =>
      intro acc
      by_cases hs : hd.strength > 0.6
      · simp only [List.foldl_cons, List.filterMap_cons, if_pos hs, ih]
        simp
      · simp only [List.foldl_cons, List.filterMap_cons, if_neg hs, ih]
  exact haux rels []

/-- C9: every triple the builder appends from the optional export file
(strength above 0.6, interaction type as assigned by the scorer from that
same strength) carries relation `flows_through` or `strongly_influences`;
the `interacts_with` and `resonates_with` map entries and the `relates_to`
fallback are unreachable for scorer-produced records. -/
theorem dynamic_relations_strong (rels : List ScoredRel)
    (h : ∀ rel ∈ rels, rel.interaction_type =
      determine_interaction_type rel.ray rel.plane rel.strength) :
    ∀ t ∈ dynamic_relationship_triples rels,
      t.2.1 = "flows_through" ∨ t.2.1 = "strongly_influences" := by
  intro t ht
  rw [dynamic_relationship_triples_eq] at ht
  simp only [List.mem_filterMap] at ht
  obtain ⟨rel, hmem, hsome⟩ := ht
  by_cases hs : rel.strength > 0.6
  · rw [if_pos hs] at hsome
    have ht2 : t.2.1 = relation_map_get rel.interaction_type := by
      rw [← Option.some_inj.mp hsome]
    rw [ht2, h rel hmem]
    unfold determine_interaction_type relation_map_get
    by_cases h8 : rel.strength > 0.8
    · rw [if_pos h8]
      simp
    · rw [if_neg h8, if_pos hs]
      simp
  · rw [if_neg hs] at hsome
    exact absurd hsome (by simp)

/-- Witness for C9: a single scorer-style record of strength 0.7. -/
theorem dynamic_relations_strong_witness :
    (∀ rel ∈ [ScoredRel.mk 4 4 0.7 (determine_interaction_type 4 4 0.7)],
        rel.interaction_type = determine_interaction_type rel.ray rel.plane rel.strength) ∧
      ∀ t ∈ dynamic_relationship_triples
          [ScoredRel.mk 4 4 0.7 (determine_interaction_type 4 4 0.7)],
        t.2.1 = "flows_through" ∨ t.2.1 = "strongly_influences" :=
  ⟨by simp, dynamic_relations_strong _ (by simp)⟩

/-- Python `sub in s` / pandas `str.contains(..., regex=False)`:
is `sub` a contiguous substring of `s`? -/
def pyContains (s sub : String) : Bool :=
  s.data.tails.any (fun t => sub.data.isPrefixOf t)

/-- Python `str.lower()` (character-wise, which is all the ASCII data here
needs). -/
def pyLower (s : String) : String := String.mk (s.data.map Char.toLower)

/-- Python `str.replace(' ', '_')`. -/
def replaceSpaces (s : String) : String :=
  String.mk (s.data.map (fun c => if c = ' ' then '_' else c))

/-- Python `', '.join(...)`. -/
def joinComma (l : List String) : String := String.intercalate ", " l

/-- Python `str.capitalize()`: first character uppercased, rest lowercased. -/
def capitalizeStr (s : String) : String :=
  match s.data with
  | [] => ""
  | c :: cs => String.mk (c.toUpper :: cs.map Char.toLower)

/-- The dict items `data['rays'].items()` after the JSON round trip
(keys are the strings `"1"`..`"7"`, in insertion order). -/
def rays_items : List (String × RayData) :=
  [("1", ray1), ("2", ray2), ("3", ray3), ("4", ray4), ("5", ray5), ("6", ray6), ("7", ray7)]

/-- The dict items `data['planes'].items()`. -/
def planes_items : List (String × PlaneData) :=
  [("1", plane1), ("2", plane2), ("3", plane3), ("4", plane4), ("5", plane5),
   ("6", plane6), ("7", plane7)]

/-- `data['relationships']['primary_rulerships']` items (keys are strings
after the JSON round trip, the plane lists hold integers). -/
def primary_rulerships : List (String × List ℕ) :=
  [("1", [1, 7]), ("2", [2, 6]), ("3", [3, 5]), ("4", [4]), ("5", [5]), ("6", [6]), ("7", [7])]

/-- `data['color_mappings']['primary_triad']` items. -/
def primary_triad : List (String × ℕ) :=
  [("red", 1), ("blue", 2), ("yellow", 3)]

/-- The `bailey_quotes` list of `create_entities_and_triples`. -/
def bailey_quotes : List String :=
  ["Enlightenment is humanity\x27s emergence from self-incurred immaturity",
   "The fourth ray is the ray of harmony through conflict",
   "The buddhic plane is the plane of pure reason and intuition",
   "Humanity serves as the bridge between the animal and spiritual kingdoms",
   "The goal of evolution is the development of consciousness",
   "Each ray represents a different aspect of divine will-to-good"]

/-- The dedup check `if some_id not in [e['id'] for e in entities]` followed
by an append. -/
def addEntityIfNew (entities : List Entity) (e : Entity) : List Entity :=
  if (entities.map Entity.id).contains e.id then entities else entities ++ [e]

/-- Body of the `for ray_id, ray_data in data['rays'].items()` loop. -/
def process_ray (acc : List Entity × List Triple) (kv : String × RayData) :
    List Entity × List Triple :=
  let ray_id := kv.1
  let ray_data := kv.2
  let entity_id := "Ray" ++ ray_id
  let ray_entity : Entity :=
    { id := entity_id
      label := "Ray " ++ ray_id ++ ": " ++ ray_data.name
      kind := "Ray"
      color := ray_data.color
      description := "Ray " ++ ray_id ++ " - " ++ ray_data.name ++ ": " ++ ray_data.quality ++
        ". Keywords: " ++ joinComma ray_data.keywords }
  let entities := acc.1 ++ [ray_entity]
  let triples := acc.2 ++ [
    (entity_id, "hasName", ray_data.name),
    (entity_id, "hasQuality", ray_data.quality),
    (entity_id, "hasColor", ray_data.color),
    (entity_id, "hasPurpose", ray_data.purpose),
    (entity_id, "ruledBy", ray_data.planetary_ruler),
    (entity_id, "hasNote", ray_data.note),
    (entity_id, "hasElement", ray_data.element)]
  ray_data.keywords.foldl (fun acc2 keyword =>
    let keyword_id := "Quality_" ++ replaceSpaces keyword
    let keyword_entity : Entity :=
      { id := keyword_id
        label := keyword
        kind := "Quality"
        color := "#888888"
        description := "Spiritual quality: " ++ keyword }
    (addEntityIfNew acc2.1 keyword_entity,
      acc2.2 ++ [(entity_id, "embodies", keyword_id)])) (entities, triples)

/-- Body of the `for plane_id, plane_data in data['planes'].items()` loop. -/
def process_plane (acc : List Entity × List Triple) (kv : String × PlaneData) :
    List Entity × List Triple :=
  let plane_id := kv.1
  let plane_data := kv.2
  let entity_id := "Plane" ++ plane_id
  let plane_entity : Entity :=
    { id := entity_id
      label := "Plane " ++ plane_id ++ ": " ++ plane_data.name
      kind := "Plane"
      color := plane_data.color
      description := "Plane " ++ plane_id ++ " - " ++ plane_data.name ++ ": " ++
        plane_data.consciousness_state ++ ". " ++ plane_data.description }
  let entities := acc.1 ++ [plane_entity]
  let triples := acc.2 ++ [
    (entity_id, "hasName", plane_data.name),
    (entity_id, "hasConsciousness", plane_data.consciousness_state),
    (entity_id, "hasElement", plane_data.element),
    (entity_id, "hasColor", plane_data.color),
    (entity_id, "hasGeometry", plane_data.geometric_form),
    (entity_id, "hasFrequency", plane_data.frequency_str)]
  plane_data.alternate_names.foldl (fun acc2 alt_name =>
    let alt_id := "Name_" ++ replaceSpaces alt_name
    let alt_entity : Entity :=
      { id := alt_id
        label := alt_name
        kind := "AlternateName"
        color := "#666666"
        description := "Alternate name for plane: " ++ alt_name }
    (addEntityIfNew acc2.1 alt_entity,
      acc2.2 ++ [(entity_id, "alsoKnownAs", alt_id)])) (entities, triples)

/-- The primary-rulership double loop. -/
def rulership_triples (triples : List Triple) : List Triple :=
  primary_rulerships.foldl (fun ts kv =>
    kv.2.foldl (fun ts2 plane_num =>
      ts2 ++ [("Ray" ++ kv.1, "primarily_governs", "Plane" ++ toString plane_num),
        ("Plane" ++ toString plane_num, "primarily_ruled_by", "Ray" ++ kv.1)]) ts) triples

/-- The three hand-authored fourth-emphasis entities. -/
def fourth_entities : List Entity :=
  [{ id := "Fourth_Bridge_Function", label := "Fourth Bridge Function", kind := "Function",
     color := "#00FF00",
     description := "The bridge function between higher spiritual triad and lower quaternary" },
   { id := "Humanity", label := "Humanity (Fourth Kingdom)", kind := "Kingdom",
     color := "#FFD700",
     description := "Humanity as the fourth kingdom, mediator between animal and spiritual realms" },
   { id := "Christ_Consciousness", label := "Christ Consciousness", kind := "Consciousness",
     color := "#00BFFF",
     description := "Unity awareness and Christ consciousness on the buddhic plane" }]

/-- The six hand-authored fourth-emphasis triples. -/
def fourth_triples : List Triple :=
  [("Ray4", "embodies", "Fourth_Bridge_Function"),
   ("Plane4", "embodies", "Fourth_Bridge_Function"),
   ("Ray4", "mediates_for", "Humanity"),
   ("Plane4", "enables", "Christ_Consciousness"),
   ("Humanity", "evolves_through", "Ray4"),
   ("Fourth_Bridge_Function", "harmonizes", "Conflict")]

/-- Body of the `for color_name, ray_num in primary_triad.items()` loop. -/
def process_color (acc : List Entity × List Triple) (kv : String × ℕ) :
    List Entity × List Triple :=
  let color_id := "Color_" ++ capitalizeStr kv.1
  let color_entity : Entity :=
    { id := color_id
      label := capitalizeStr kv.1
      kind := "Color"
      color := (raysData kv.2).color
      description := "Primary color " ++ kv.1 ++ " associated with divine expression" }
  (addEntityIfNew acc.1 color_entity,
    acc.2 ++ [("Ray" ++ toString kv.2, "manifests_as", color_id)])

/-- Body of the `for i, quote in enumerate(bailey_quotes)` loop. -/
def process_quote (acc : List Entity × List Triple) (iq : ℕ × String) :
    List Entity × List Triple :=
  let quote_id := "Quote_" ++ toString (iq.1 + 1)
  let quote_entity : Entity :=
    { id := quote_id
      label := "Bailey Quote " ++ toString (iq.1 + 1)
      kind := "Teaching"
      color := "#E6E6FA"
      description := iq.2 }
  let entities := acc.1 ++ [quote_entity]
  let ts0 := acc.2
  let ts1 := if pyContains (pyLower iq.2) "fourth ray" then
    ts0 ++ [("Ray4", "described_by", quote_id)] else ts0
  let ts2 := if pyContains (pyLower iq.2) "buddhic" then
    ts1 ++ [("Plane4", "described_by", quote_id)] else ts1
  let ts3 := if pyContains (pyLower iq.2) "humanity" then
    ts2 ++ [("Humanity", "described_by", quote_id)] else ts2
  (entities, ts3)

/-- Everything `create_entities_and_triples` accumulates before the
optional relationship-export step: rays, planes, rulerships, the fixed
fourth-emphasis records, and the primary-triad colors. -/
def base_acc : List Entity × List Triple :=
  let acc : List Entity × List Triple := ([], [])
  let acc := rays_items.foldl process_ray acc
  let acc := planes_items.foldl process_plane acc
  let acc := (acc.1, rulership_triples acc.2)
  let acc := (acc.1 ++ fourth_entities, acc.2 ++ fourth_triples)
  primary_triad.foldl process_color acc

/-- `create_entities_and_triples`.  The argument models the optional
`ray_plane_relationships_human.json` file: `none` is the
`FileNotFoundError` path (skip silently), `some rels` is its parsed
relationship list. -/
def create_entities_and_triples (dynamic_rels : Option (List ScoredRel)) :
    List Entity × List Triple :=
  let acc := base_acc
  let acc := (acc.1, acc.2 ++ (match dynamic_rels with
    | some rels => dynamic_relationship_triples rels
    | none => []))
  bailey_quotes.enum.foldl process_quote acc

set_option maxRecDepth 20000 in
/-- C3 counterexample: the builder always emits the triple
`(Fourth_Bridge_Function, harmonizes, Conflict)`, yet no entity in the
returned entity list has id `Conflict` — a triple tail that is not an
entity id, even in a run without the optional export file. -/
theorem triple_tail_not_an_entity :
    ("Fourth_Bridge_Function", "harmonizes", "Conflict") ∈ (create_entities_and_triples none).2 ∧
      ∀ e ∈ (create_entities_and_triples none).1, e.id ≠ "Conflict" := by decide

/-- The entity record one quote contributes. -/
def quoteEntity (iq : ℕ × String) : Entity :=
  { id := "Quote_" ++ toString (iq.1 + 1)
    label := "Bailey Quote " ++ toString (iq.1 + 1)
    kind := "Teaching"
    color := "#E6E6FA"
    description := iq.2 }

/-- The `described_by` triples one quote contributes. -/
def quoteLinks (iq : ℕ × String) : List Triple :=
  (if pyContains (pyLower iq.2) "fourth ray" then
    [("Ray4", "described_by", "Quote_" ++ toString (iq.1 + 1))] else []) ++
  (if pyContains (pyLower iq.2) "buddhic" then
    [("Plane4", "described_by", "Quote_" ++ toString (iq.1 + 1))] else []) ++
  (if pyContains (pyLower iq.2) "humanity" then
    [("Humanity", "described_by", "Quote_" ++ toString (iq.1 + 1))] else [])

/-- One quote step only appends: its entity and its links. -/
theorem process_quote_append (acc : List Entity × List Triple) (iq : ℕ × String) :
    process_quote acc iq = (acc.1 ++ [quoteEntity iq], acc.2 ++ quoteLinks iq) := by
  unfold process_quote quoteEntity quoteLinks
  by_cases c1 : pyContains (pyLower iq.2) "fourth ray" = true <;>
    by_cases c2 : pyContains (pyLower iq.2) "buddhic" = true <;>
      by_cases c3 : pyContains (pyLower iq.2) "humanity" = true <;>
        simp [c1, c2, c3, List.append_assoc]

/-- The quote fold appends the per-quote entities and links. -/
theorem foldl_process_quote (l : List (ℕ × String)) :
    ∀ (es : List Entity) (ts : List Triple),
      l.foldl process_quote (es, ts) = (es ++ l.map quoteEntity, ts ++ l.flatMap quoteLinks) := by
  induction l with
  | nil => intro es ts; simp
  | cons x l ih =>
    intro es ts
    rw [List.foldl_cons, process_quote_append (es, ts) x]
    rw [ih]
    simp [List.append_assoc]

/-- Decomposition of the builder: the entity list never depends on the
optional export file, and the triples are the fixed base, then the dynamic
relationship triples (if any), then the quote links. -/
theorem create_entities_and_triples_eq (d : Option (List ScoredRel)) :
    create_entities_and_triples d =
      (base_acc.1 ++ bailey_quotes.enum.map quoteEntity,
        (base_acc.2 ++ (match d with
          | some rels => dynamic_relationship_triples rels
          | none => [])) ++ bailey_quotes.enum.flatMap quoteLinks) := by
  unfold create_entities_and_triples
  exact foldl_process_quote _ _ _

/-- The ids of all entities the builder emits, in order. -/
def entity_id_list : List String :=
  ["Ray1", "Quality_Power", "Quality_Will", "Quality_Purpose", "Quality_Leadership",
   "Quality_Initiative",
   "Ray2", "Quality_Love", "Quality_Wisdom", "Quality_Teaching", "Quality_Healing",
   "Quality_Intuition",
   "Ray3", "Quality_Intelligence", "Quality_Creativity", "Quality_Manipulation",
   "Quality_Mental", "Quality_Adaptability",
   "Ray4", "Quality_Harmony", "Quality_Beauty", "Quality_Conflict", "Quality_Art",
   "Quality_Mediation", "Quality_Bridge",
   "Ray5", "Quality_Science", "Quality_Research", "Quality_Knowledge", "Quality_Precision",
   "Quality_Analysis",
   "Ray6", "Quality_Devotion", "Quality_Idealism", "Quality_Religion", "Quality_Faith",
   "Quality_Emotion",
   "Ray7", "Quality_Order", "Quality_Ceremony", "Quality_Magic", "Quality_Ritual",
   "Quality_Organization", "Quality_Transformation",
   "Plane1", "Name_Adi", "Name_Divine",
   "Plane2", "Name_Anupadaka", "Name_Primordial",
   "Plane3", "Name_Spiritual", "Name_Nirvanic",
   "Plane4", "Name_Intuitional", "Name_Christ_Consciousness",
   "Plane5", "Name_Manasic", "Name_Mind",
   "Plane6", "Name_Emotional", "Name_Desire", "Name_Kamic",
   "Plane7", "Name_Dense", "Name_Etheric-Physical",
   "Fourth_Bridge_Function", "Humanity", "Christ_Consciousness",
   "Color_Red", "Color_Blue", "Color_Yellow",
   "Quote_1", "Quote_2", "Quote_3", "Quote_4", "Quote_5", "Quote_6"]

set_option maxRecDepth 20000 in
/-- The builder's entity ids evaluate to `entity_id_list`. -/
theorem entity_ids_eval :
    (base_acc.1 ++ bailey_quotes.enum.map quoteEntity).map Entity.id = entity_id_list := by
  decide

/-- The ten relations whose tails are literal attribute values (names,
qualities, colors, rulers, notes, elements, consciousness states, geometric
forms, frequencies), not entity ids. -/
def attribute_relations : List String :=
  ["hasName", "hasQuality", "hasColor", "hasPurpose", "ruledBy", "hasNote", "hasElement",
   "hasConsciousness", "hasGeometry", "hasFrequency"]

set_option maxRecDepth 40000 in
/-- C3 (amended): for every run of the builder — with the optional export
file absent, or present with scorer-produced ray/plane numbers in 1..7 —
the head of every triple is the id of some entity in the returned list, and
so is the tail, except for the literal-valued attribute triples and the
fixed triple `(Fourth_Bridge_Function, harmonizes, Conflict)`. -/
theorem builder_triple_refs (d : Option (List ScoredRel))
    (h : ∀ rel ∈ d.getD [], (1 ≤ rel.ray ∧ rel.ray ≤ 7) ∧ (1 ≤ rel.plane ∧ rel.plane ≤ 7)) :
    ∀ t ∈ (create_entities_and_triples d).2,
      t.1 ∈ (create_entities_and_triples d).1.map Entity.id ∧
        (t.2.1 ∉ attribute_relations →
          t ≠ ("Fourth_Bridge_Function", "harmonizes", "Conflict") →
          t.2.2 ∈ (create_entities_and_triples d).1.map Entity.id) := by
  have hbase : ∀ t ∈ base_acc.2,
      t.1 ∈ entity_id_list ∧
        (t.2.1 ∉ attribute_relations →
          t ≠ ("Fourth_Bridge_Function", "harmonizes", "Conflict") →
          t.2.2 ∈ entity_id_list) := by decide
  have hquote : ∀ t ∈ bailey_quotes.enum.flatMap quoteLinks,
      t.1 ∈ entity_id_list ∧
        (t.2.1 ∉ attribute_relations →
          t ≠ ("Fourth_Bridge_Function", "harmonizes", "Conflict") →
          t.2.2 ∈ entity_id_list) := by decide
  have hrp : ∀ n < 8, 1 ≤ n →
      ("Ray" ++ toString n) ∈ entity_id_list ∧ ("Plane" ++ toString n) ∈ entity_id_list := by
    decide
  intro t ht
  rw [create_entities_and_triples_eq] at ht
  simp only [create_entities_and_triples_eq, entity_ids_eval]
  simp only [List.mem_append] at ht
  rcases ht with (htb | htd) | htq
  · exact hbase t htb
  · cases d with
    | none => simp at htd
    | some rels =>
      replace htd : t ∈ dynamic_relationship_triples rels := htd
      rw [dynamic_relationship_triples_eq] at htd
      simp only [List.mem_filterMap] at htd
      obtain ⟨rel, hmem, hsome⟩ := htd
      have hb := h rel (by simpa using hmem)
      by_cases hs : rel.strength > 0.6
      · rw [if_pos hs] at hsome
        have hteq := Option.some_inj.mp hsome
        subst hteq
        refine ⟨?_, fun _ _ => ?_⟩
        · exact (hrp rel.ray (by omega) (by omega)).1
        · exact (hrp rel.plane (by omega) (by omega)).2
      · rw [if_neg hs] at hsome
        exact absurd hsome (by simp)
  · exact hquote t htq

/-- Witness for the amended C3 at the run without the export file. -/
theorem builder_triple_refs_witness :
    (∀ rel ∈ (none : Option (List ScoredRel)).getD [],
        (1 ≤ rel.ray ∧ rel.ray ≤ 7) ∧ (1 ≤ rel.plane ∧ rel.plane ≤ 7)) ∧
      ∀ t ∈ (create_entities_and_triples none).2,
        t.1 ∈ (create_entities_and_triples none).1.map Entity.id ∧
          (t.2.1 ∉ attribute_relations →
            t ≠ ("Fourth_Bridge_Function", "harmonizes", "Conflict") →
            t.2.2 ∈ (create_entities_and_triples none).1.map Entity.id) :=
  ⟨by simp, builder_triple_refs none (by simp)⟩

/-! ## Embedding fusion and app state (app.py) -/

/-- Sum of squares of a vector; `np.linalg.norm` is its square root. -/
def sumSq (v : List ℝ) : ℝ := (v.map (fun x => x ^ 2)).sum

/-- L2 norm of a vector. -/
noncomputable def l2norm (v : List ℝ) : ℝ := Real.sqrt (sumSq v)

/-- One row of `kg_embeddings / np.linalg.norm(kg_embeddings, axis=1, keepdims=True)`. -/
noncomputable def l2normalize (v : List ℝ) : List ℝ := v.map (fun x => x / l2norm v)

/-- Column count (`shape[1]`) of a matrix stored as a list of rows. -/
def matWidth (m : List (List ℝ)) : ℕ := (m.headD []).length

/-- `create_fused_embeddings`: L2-normalize the graph vectors, truncate
both tables to `min_dim = min(kg_norm.shape[1], text_embeddings.shape[1])`,
and combine rows elementwise as `alpha * kg + (1 - alpha) * text`. -/
noncomputable def create_fused_embeddings (kg_embeddings text_embeddings : List (List ℝ))
    (alpha : ℝ) : List (List ℝ) :=
  let kg_norm := kg_embeddings.map l2normalize
  let min_dim := min (matWidth kg_norm) (matWidth text_embeddings)
  List.zipWith (fun g t =>
      List.zipWith (fun a b => alpha * a + (1 - alpha) * b) (g.take min_dim) (t.take min_dim))
    kg_norm text_embeddings

/-- Normalizing a row keeps its length. -/
theorem l2normalize_length (v : List ℝ) : (l2normalize v).length = v.length := by
  simp [l2normalize]

/-- Row-wise normalization keeps the column count. -/
theorem matWidth_map_l2normalize (m : List (List ℝ)) :
    matWidth (m.map l2normalize) = matWidth m := by
  cases m with
  | nil => rfl
  | cons v t => simp [matWidth, l2normalize_length]

/-- `zipWith` with a left-projecting function returns the left list. -/
theorem zipWith_proj_left (f : ℝ → ℝ → ℝ) (hf : ∀ a b, f a b = a) :
    ∀ (as bs : List ℝ), as.length = bs.length → List.zipWith f as bs = as := by
  intro as
  induction as with
  | nil => intro bs _; simp
  | cons a as ih =>
    intro bs hlen
    cases bs with
    | nil => simp at hlen
    | cons b bs =>
      simp only [List.zipWith_cons_cons, hf]
      rw [ih bs (by simpa using hlen)]

/-- `zipWith` with a right-projecting function returns the right list. -/
theorem zipWith_proj_right (f : ℝ → ℝ → ℝ) (hf : ∀ a b, f a b = b) :
    ∀ (as bs : List ℝ), as.length = bs.length → List.zipWith f as bs = bs := by
  intro as
  induction as with
  | nil =>
    intro bs hlen
    cases bs with
    | nil => simp
    | cons b bs => simp at hlen
  | cons a as ih =>
    intro bs hlen
    cases bs with
    | nil => simp at hlen
    | cons b bs =>
      simp only [List.zipWith_cons_cons, hf]
      rw [ih bs (by simpa using hlen)]

/-- Row combination with a left-projecting scalar function truncates the
left rows. -/
theorem zipWith_rows_left (d : ℕ) (f : ℝ → ℝ → ℝ) (hf : ∀ a b, f a b = a) :
    ∀ (xs ys : List (List ℝ)), xs.length = ys.length →
      (∀ v ∈ xs, d ≤ v.length) → (∀ v ∈ ys, d ≤ v.length) →
      List.zipWith (fun g t => List.zipWith f (g.take d) (t.take d)) xs ys =
        xs.map (List.take d) := by
  intro xs
  induction xs with
  | nil => intro ys _ _ _; simp
  | cons g xs ih =>
    intro ys hlen hx hy
    cases ys with
    | nil => simp at hlen
    | cons t ys =>
      simp only [List.zipWith_cons_cons, List.map_cons]
      congr 1
      · apply zipWith_proj_left f hf
        rw [List.length_take, List.length_take]
        have h1 : d ≤ g.length := hx g (by simp)
        have h2 : d ≤ t.length := hy t (by simp)
        omega
      · exact ih ys (by simpa using hlen) (fun v hv => hx v (by simp [hv]))
          (fun v hv => hy v (by simp [hv]))

/-- Row combination with a right-projecting scalar function truncates the
right rows. -/
theorem zipWith_rows_right (d : ℕ) (f : ℝ → ℝ → ℝ) (hf : ∀ a b, f a b = b) :
    ∀ (xs ys : List (List ℝ)), xs.length = ys.length →
      (∀ v ∈ xs, d ≤ v.length) → (∀ v ∈ ys, d ≤ v.length) →
      List.zipWith (fun g t => List.zipWith f (g.take d) (t.take d)) xs ys =
        ys.map (List.take d) := by
  intro xs
  induction xs with
  | nil =>
    intro ys hlen _ _
    cases ys
    · simp
    · simp at hlen
  | cons g xs ih =>
    intro ys hlen hx hy
    cases ys with
    | nil => simp at hlen
    | cons t ys =>
      simp only [List.zipWith_cons_cons, List.map_cons]
      congr 1
      · apply zipWith_proj_right f hf
        rw [List.length_take, List.length_take]
        have h1 : d ≤ g.length := hx g (by simp)
        have h2 : d ≤ t.length := hy t (by simp)
        omega
      · exact ih ys (by simpa using hlen) (fun v hv => hx v (by simp [hv]))
          (fun v hv => hy v (by simp [hv]))

/-- C5: for rectangular tables with every graph vector nonzero, fusion with
`alpha = 1.0` returns exactly the L2-normalized graph vectors truncated to
`min(graph_dim, text_dim)`, and fusion with `alpha = 0.0` returns exactly
the text vectors so truncated; the weighted sum is not renormalized. -/
theorem fuse_endpoints (kg_embeddings text_embeddings : List (List ℝ))
    (hrows : kg_embeddings.length = text_embeddings.length)
    (hkg : ∀ v ∈ kg_embeddings, v.length = matWidth kg_embeddings)
    (htx : ∀ v ∈ text_embeddings, v.length = matWidth text_embeddings)
    (hnz : ∀ v ∈ kg_embeddings, sumSq v ≠ 0) :
    create_fused_embeddings kg_embeddings text_embeddings 1 =
        (kg_embeddings.map l2normalize).map
          (List.take (min (matWidth kg_embeddings) (matWidth text_embeddings))) ∧
      create_fused_embeddings kg_embeddings text_embeddings 0 =
        text_embeddings.map
          (List.take (min (matWidth kg_embeddings) (matWidth text_embeddings))) := by
  have hw : matWidth (kg_embeddings.map l2normalize) = matWidth kg_embeddings :=
    matWidth_map_l2normalize kg_embeddings
  have hlen : (kg_embeddings.map l2normalize).length = text_embeddings.length := by
    simpa using hrows
  have hxrows : ∀ v ∈ kg_embeddings.map l2normalize,
      min (matWidth kg_embeddings) (matWidth text_embeddings) ≤ v.length := by
    intro v hv
    obtain ⟨w, hw2, rfl⟩ := List.mem_map.mp hv
    rw [l2normalize_length, hkg w hw2]
    omega
  have hyrows : ∀ v ∈ text_embeddings,
      min (matWidth kg_embeddings) (matWidth text_embeddings) ≤ v.length := by
    intro v hv
    rw [htx v hv]
    omega
  constructor
  · show List.zipWith _ (kg_embeddings.map l2normalize) text_embeddings = _
    rw [hw]
    exact zipWith_rows_left _ (fun a b => 1 * a + (1 - 1) * b) (by intro a b; ring)
      _ _ hlen hxrows hyrows
  · show List.zipWith _ (kg_embeddings.map l2normalize) text_embeddings = _
    rw [hw]
    exact zipWith_rows_right _ (fun a b => 0 * a + (1 - 0) * b) (by intro a b; ring)
      _ _ hlen hxrows hyrows

/-- Witness for C5 with graph table `[[3, 4]]` and text table `[[1, 0, 5]]`. -/
theorem fuse_endpoints_witness :
    (∀ v ∈ [[(3:ℝ), 4]], sumSq v ≠ 0) ∧
      (create_fused_embeddings [[(3:ℝ), 4]] [[1, 0, 5]] 1 =
          ([[(3:ℝ), 4]].map l2normalize).map
            (List.take (min (matWidth [[(3:ℝ), 4]]) (matWidth [[(1:ℝ), 0, 5]]))) ∧
        create_fused_embeddings [[(3:ℝ), 4]] [[1, 0, 5]] 0 =
          [[(1:ℝ), 0, 5]].map
            (List.take (min (matWidth [[(3:ℝ), 4]]) (matWidth [[(1:ℝ), 0, 5]])))) :=
  ⟨by
    intro v hv
    rw [List.mem_singleton.mp hv]
    norm_num [sumSq],
   fuse_endpoints [[(3:ℝ), 4]] [[1, 0, 5]] (by simp)
     (by intro v hv; rw [List.mem_singleton.mp hv]; rfl)
     (by intro v hv; rw [List.mem_singleton.mp hv]; rfl)
     (by intro v hv; rw [List.mem_singleton.mp hv]; norm_num [sumSq])⟩

/-- The `fused_embeddings`-update logic of `create_visualization`: the
global table is rebuilt only when the requested `alpha` differs from the
literal default 0.6 (`if alpha != 0.6`). -/
noncomputable def create_visualization_fused (kg_embeddings text_embeddings : List (List ℝ))
    (fused_embeddings : List (List ℝ)) (alpha : ℝ) : List (List ℝ) :=
  if alpha ≠ 0.6 then create_fused_embeddings kg_embeddings text_embeddings alpha
  else fused_embeddings

/-- The fused table held in the global after `load_data` (which builds it
at alpha 0.6) followed by `create_visualization` calls with the given
fusion weights, in order. -/
noncomputable def fused_after_calls (kg_embeddings text_embeddings : List (List ℝ))
    (alphas : List ℝ) : List (List ℝ) :=
  alphas.foldl (create_visualization_fused kg_embeddings text_embeddings)
    (create_fused_embeddings kg_embeddings text_embeddings 0.6)

/-- C6 is a code bug: after the call sequence alpha = 0.3 then alpha = 0.6
(graph table `[[1, 0]]`, text table `[[0, 1]]`), the fused table still
equals `create_fused_embeddings(0.3)` and differs from
`create_fused_embeddings(0.6)`.  The guard `alpha != 0.6` compares against
the literal default instead of the weight the current table was built
with, so returning to 0.6 after another weight leaves a stale table —
contradicting the code's own comment "Update fused embeddings if alpha
changed". -/
theorem stale_fused_table_on_default_alpha :
    fused_after_calls [[(1:ℝ), 0]] [[0, 1]] [0.3, 0.6] =
        create_fused_embeddings [[(1:ℝ), 0]] [[0, 1]] 0.3 ∧
      fused_after_calls [[(1:ℝ), 0]] [[0, 1]] [0.3, 0.6] ≠
        create_fused_embeddings [[(1:ℝ), 0]] [[0, 1]] 0.6 := by
  have hrun : fused_after_calls [[(1:ℝ), 0]] [[0, 1]] [0.3, 0.6] =
      create_fused_embeddings [[(1:ℝ), 0]] [[0, 1]] 0.3 := by
    unfold fused_after_calls
    simp only [List.foldl_cons, List.foldl_nil]
    unfold create_visualization_fused
    rw [if_neg (show ¬ ((0.6 : ℝ) ≠ 0.6) by simp),
      if_pos (show (0.3 : ℝ) ≠ 0.6 by norm_num)]
  have h03 : create_fused_embeddings [[(1:ℝ), 0]] [[0, 1]] 0.3 = [[0.3, 0.7]] := by
    norm_num [create_fused_embeddings, l2normalize, l2norm, sumSq, matWidth, Real.sqrt_one]
  have h06 : create_fused_embeddings [[(1:ℝ), 0]] [[0, 1]] 0.6 = [[0.6, 0.4]] := by
    norm_num [create_fused_embeddings, l2normalize, l2norm, sumSq, matWidth, Real.sqrt_one]
  refine ⟨hrun, ?_⟩
  rw [hrun, h03, h06]
  intro hcon
  simp only [List.cons.injEq] at hcon
  norm_num at hcon

/-- The `find_entity_embedding` helper inside `ray_plane_arithmetic`:
resolve a concept to the first entity whose lowercased label contains the
lowercased concept (pandas `str.lower().str.contains(..., regex=False)`,
first match by table order), returning its fused vector and label. -/
def find_entity_embedding (labels : List String) (fused_embeddings : List (List ℝ))
    (concept_name : String) : Option (List ℝ × String) :=
  match labels.enum.find? (fun p => pyContains (pyLower p.2) (pyLower concept_name)) with
  | some (idx, label) => some (fused_embeddings.getD idx [], label)
  | none => none

/-- Elementwise vector sum. -/
def addVec (a b : List ℝ) : List ℝ := List.zipWith (· + ·) a b

/-- Elementwise vector difference. -/
def subVec (a b : List ℝ) : List ℝ := List.zipWith (· - ·) a b

/-- Elementwise vector average `(a + b) / 2`. -/
noncomputable def avgVec (a b : List ℝ) : List ℝ := (addVec a b).map (· / 2)

/-- Result of `ray_plane_arithmetic`: either the user-visible not-found
message string, or the operation text together with the composed vector
that the function then ranks against all entities (the ranking itself is
numpy library sorting, outside this embedding, and cannot raise for
resolved inputs). -/
inductive ArithmeticResult where
  | notFound (message : String)
  | table (op_text : String) (result_emb : List ℝ)

/-- `ray_plane_arithmetic` up to the point where the composed vector is
handed to the similarity ranking. -/
noncomputable def ray_plane_arithmetic (labels : List String) (fused_embeddings : List (List ℝ))
    (ray_concept operation plane_concept : String) : ArithmeticResult :=
  match find_entity_embedding labels fused_embeddings ray_concept,
      find_entity_embedding labels fused_embeddings plane_concept with
  | some (ray_emb, ray_found), some (plane_emb, plane_found) =>
    if operation = "Add (+)" then
      .table (ray_found ++ " + " ++ plane_found) (addVec ray_emb plane_emb)
    else if operation = "Subtract (-)" then
      .table (ray_found ++ " - " ++ plane_found) (subVec ray_emb plane_emb)
    else
      .table ("(" ++ ray_found ++ " + " ++ plane_found ++ ") / 2") (avgVec ray_emb plane_emb)
  | _, _ =>
    .notFound ("Could not find entities for \x27" ++ ray_concept ++ "\x27 or \x27" ++
      plane_concept ++ "\x27")

/-- C8: whenever at least one of the two labels resolves (by
case-insensitive substring match) to no entity, `ray_plane_arithmetic`
returns the user-visible not-found message value — for every operation
choice — rather than raising. -/
theorem arithmetic_not_found (labels : List String) (fused_embeddings : List (List ℝ))
    (ray_concept operation plane_concept : String)
    (h : find_entity_embedding labels fused_embeddings ray_concept = none ∨
      find_entity_embedding labels fused_embeddings plane_concept = none) :
    ray_plane_arithmetic labels fused_embeddings ray_concept operation plane_concept =
      ArithmeticResult.notFound ("Could not find entities for \x27" ++ ray_concept ++
        "\x27 or \x27" ++ plane_concept ++ "\x27") := by
  unfold ray_plane_arithmetic
  rcases h with h | h
  · rw [h]
  · rcases hfr : find_entity_embedding labels fused_embeddings ray_concept with _ | p
    · rfl
    · rw [h]

/-- Witness for C8: the single-entity table with the unresolvable label
`Ray 99`. -/
theorem arithmetic_not_found_witness :
    (find_entity_embedding ["Ray 4: Harmony through Conflict"] [[(1:ℝ), 0]] "Ray 99" = none ∨
        find_entity_embedding ["Ray 4: Harmony through Conflict"] [[(1:ℝ), 0]] "Plane 4" = none) ∧
      ray_plane_arithmetic ["Ray 4: Harmony through Conflict"] [[(1:ℝ), 0]] "Ray 99"
          "Add (+)" "Plane 4" =
        ArithmeticResult.notFound ("Could not find entities for \x27" ++ "Ray 99" ++
          "\x27 or \x27" ++ "Plane 4" ++ "\x27") :=
  ⟨Or.inl rfl,
    arithmetic_not_found ["Ray 4: Harmony through Conflict"] [[(1:ℝ), 0]] "Ray 99"
      "Add (+)" "Plane 4" (Or.inl rfl)⟩
